import Mathlib

/-!
Verification of the session/transport abstraction, message model and
command-dispatch server loop of the tennis-ball-tracker repository
(src/tennis_ball_tracker/session.py, messages.py, api.py, server.py).

Conventions used throughout:
* Python byte strings and wire strings are modelled as lists of naturals
  (their character codes), Python ints as integers, Python floats as exact
  rationals (the codec carries them verbatim; no IEEE rounding is modelled).
* Fallible Python code (raising statements) is modelled with Except/Option;
  the distinct Python exception classes are the constructors of pyErr.
* The wire codec is msgpack, an external library: it is modelled from the
  spec's contract (a deterministic, self-delimited, type-preserving binary
  serialization with decode the exact inverse of encode).
-/

/-- A little-endian base-128 varint: the low 7 bits of each byte carry the
payload, the high bit marks a continuation byte.  Used by the modelled wire
codec to make every encoded value self-delimited. -/
def varint (n : Nat) : List Nat :=
  if h : n < 128 then [n]
  else (n % 128 + 128) :: varint (n / 128)
  decreasing_by exact Nat.div_lt_self (by omega) (by omega)

/-- Reads one varint from the front of a byte list, returning the value and
the unconsumed remainder. -/
def readVarint : List Nat → Option (Nat × List Nat)
  | [] => none
  | b :: rest =>
    if b < 128 then some (b, rest)
    else (readVarint rest).map fun p => (b - 128 + 128 * p.1, p.2)

theorem readVarint_varint (n : Nat) (rest : List Nat) :
    readVarint (varint n ++ rest) = some (n, rest) := by
  induction n using Nat.strong_induction_on with
  | _ n ih =>
    rw [varint]
    by_cases h : n < 128
    · simp [h, readVarint]
    · have hdiv : n / 128 < n := Nat.div_lt_self (by omega) (by omega)
      rw [dif_neg h, List.cons_append, readVarint]
      have hb : ¬ (n % 128 + 128 < 128) := by omega
      simp only [hb, if_false, ih (n / 128) hdiv]
      have hmd := Nat.mod_add_div n 128
      simp
      omega

/-- Signed-integer encoding for the modelled codec: a sign byte followed by
the varint of the magnitude (negatives encoded via negSucc). -/
def encInt : Int → List Nat
  | .ofNat n => 0 :: varint n
  | .negSucc n => 1 :: varint n

/-- Reads one encoded integer from the front of a byte list. -/
def readInt : List Nat → Option (Int × List Nat)
  | [] => none
  | b :: rest =>
    if b = 0 then (readVarint rest).map fun p => (Int.ofNat p.1, p.2)
    else if b = 1 then (readVarint rest).map fun p => (Int.negSucc p.1, p.2)
    else none

theorem readInt_encInt (i : Int) (rest : List Nat) :
    readInt (encInt i ++ rest) = some (i, rest) := by
  cases i with
  | ofNat n => simp [encInt, readInt, readVarint_varint]
  | negSucc n => simp [encInt, readInt, readVarint_varint]

/-- The msgpack data model (spec section 4.1): the wire codec preserves
strings, integers, floats, booleans, byte blobs, lists and nested mappings
exactly.  Strings and byte blobs are byte lists; floats are exact
rationals carried verbatim. -/
inductive Value where
  | nil : Value
  | bool (b : Bool) : Value
  | int (n : Int) : Value
  | float (q : ℚ) : Value
  | str (s : List Nat) : Value
  | bin (b : List Nat) : Value
  | list (xs : List Value) : Value
  | map (kvs : List (Value × Value)) : Value

mutual

/-- Modelled from the spec: the wire codec's encode (msgpack.packb in the
source, an external library).  One tag byte per value, then a
self-delimiting payload: scalars carry varints, strings/blobs are
length-prefixed, containers are count-prefixed. -/
def encodeV : Value → List Nat
  | .nil => [0xc0]
  | .bool false => [0xc2]
  | .bool true => [0xc3]
  | .int n => 0xd3 :: encInt n
  | .float q => 0xcb :: (encInt q.num ++ varint q.den)
  | .str s => 0xdb :: (varint s.length ++ s)
  | .bin b => 0xc6 :: (varint b.length ++ b)
  | .list xs => 0xdd :: (varint xs.length ++ encodeVList xs)
  | .map kvs => 0xdf :: (varint kvs.length ++ encodeVMap kvs)

/-- Concatenated encodings of a list of values. -/
def encodeVList : List Value → List Nat
  | [] => []
  | v :: vs => encodeV v ++ encodeVList vs

/-- Concatenated encodings of the key-value pairs of a mapping. -/
def encodeVMap : List (Value × Value) → List Nat
  | [] => []
  | (k, v) :: kvs => encodeV k ++ encodeV v ++ encodeVMap kvs

end

mutual

/-- Nesting depth of a value; the decoder needs this much fuel. -/
def depthV : Value → Nat
  | .list xs => 1 + depthVList xs
  | .map kvs => 1 + depthVMap kvs
  | _ => 1

/-- Maximum nesting depth over a list of values. -/
def depthVList : List Value → Nat
  | [] => 0
  | v :: vs => max (depthV v) (depthVList vs)

/-- Maximum nesting depth over the keys and values of a mapping. -/
def depthVMap : List (Value × Value) → Nat
  | [] => 0
  | (k, v) :: kvs => max (max (depthV k) (depthV v)) (depthVMap kvs)

end

mutual

/-- Modelled from the spec: the wire codec's decode (msgpack.Unpacker in the
source, an external library).  Reads one value from the front of a byte
list; fuel bounds the nesting depth that can be consumed. -/
def decodeV : Nat → List Nat → Option (Value × List Nat)
  | 0, _ => none
  | _ + 1, [] => none
  | f + 1, t :: rest =>
    if t = 0xc0 then some (.nil, rest)
    else if t = 0xc2 then some (.bool false, rest)
    else if t = 0xc3 then some (.bool true, rest)
    else if t = 0xd3 then (readInt rest).map fun p => (.int p.1, p.2)
    else if t = 0xcb then
      match readInt rest with
      | none => none
      | some (num, r1) =>
        match readVarint r1 with
        | none => none
        | some (den, r2) => some (.float (mkRat num den), r2)
    else if t = 0xdb then
      match readVarint rest with
      | none => none
      | some (len, r1) =>
        if len ≤ r1.length then some (.str (r1.take len), r1.drop len) else none
    else if t = 0xc6 then
      match readVarint rest with
      | none => none
      | some (len, r1) =>
        if len ≤ r1.length then some (.bin (r1.take len), r1.drop len) else none
    else if t = 0xdd then
      match readVarint rest with
      | none => none
      | some (len, r1) =>
        (decodeVListN f len r1).map fun p => (.list p.1, p.2)
    else if t = 0xdf then
      match readVarint rest with
      | none => none
      | some (len, r1) =>
        (decodeVMapN f len r1).map fun p => (.map p.1, p.2)
    else none

/-- Reads exactly n consecutive values. -/
def decodeVListN : Nat → Nat → List Nat → Option (List Value × List Nat)
  | _, 0, bs => some ([], bs)
  | f, n + 1, bs =>
    match decodeV f bs with
    | none => none
    | some (v, r1) =>
      (decodeVListN f n r1).map fun p => (v :: p.1, p.2)

/-- Reads exactly n consecutive key-value pairs. -/
def decodeVMapN : Nat → Nat → List Nat → Option (List (Value × Value) × List Nat)
  | _, 0, bs => some ([], bs)
  | f, n + 1, bs =>
    match decodeV f bs with
    | none => none
    | some (k, r1) =>
      match decodeV f r1 with
      | none => none
      | some (v, r2) =>
        (decodeVMapN f n r2).map fun p => ((k, v) :: p.1, p.2)

end

theorem one_le_depthV (v : Value) : 1 ≤ depthV v := by
  cases v <;> simp [depthV]

theorem depthV_le_depthVList {x : Value} {xs : List Value} (h : x ∈ xs) :
    depthV x ≤ depthVList xs := by
  induction xs with
  | nil => cases h
  | cons y ys ihy =>
    rcases List.mem_cons.mp h with rfl | hmem
    · simp [depthVList]
    · exact le_trans (ihy hmem) (by simp [depthVList])

theorem depthV_le_depthVMap {k v : Value} {kvs : List (Value × Value)}
    (h : (k, v) ∈ kvs) : depthV k ≤ depthVMap kvs ∧ depthV v ≤ depthVMap kvs := by
  induction kvs with
  | nil => cases h
  | cons p ps ihp =>
    obtain ⟨pk, pv⟩ := p
    rcases List.mem_cons.mp h with heq | hmem
    · obtain ⟨rfl, rfl⟩ := Prod.mk.injEq .. ▸ heq
      constructor <;> simp [depthVMap]
    · obtain ⟨h1, h2⟩ := ihp hmem
      constructor <;> simp only [depthVMap] <;> omega

theorem decodeV_encodeV :
    ∀ (f : Nat) (v : Value) (rest : List Nat), depthV v ≤ f →
      decodeV f (encodeV v ++ rest) = some (v, rest) := by
  intro f
  induction f using Nat.strong_induction_on with
  | _ f ih =>
    intro v rest hdep
    match f with
    | 0 =>
      exact absurd (le_trans (one_le_depthV v) hdep) (by omega)
    | g + 1 =>
      match v with
      | .nil => simp [encodeV, decodeV]
      | .bool false => simp [encodeV, decodeV]
      | .bool true => simp [encodeV, decodeV]
      | .int n => simp [encodeV, decodeV, readInt_encInt]
      | .float q =>
        simp [encodeV, decodeV, List.append_assoc, readInt_encInt,
          readVarint_varint, Rat.mkRat_self]
      | .str s =>
        simp [encodeV, decodeV, List.append_assoc, readVarint_varint,
          List.take_left, List.drop_left]
      | .bin b =>
        simp [encodeV, decodeV, List.append_assoc, readVarint_varint,
          List.take_left, List.drop_left]
      | .list xs =>
        have hxs : depthVList xs ≤ g := by
          simp only [depthV] at hdep; omega
        have aux : ∀ (ys : List Value), depthVList ys ≤ g → ∀ (bs : List Nat),
            decodeVListN g ys.length (encodeVList ys ++ bs) = some (ys, bs) := by
          intro ys
          induction ys with
          | nil => intro _ bs; simp [encodeVList, decodeVListN]
          | cons y ys ihy =>
            intro hy bs
            have hdy : depthV y ≤ g := by
              have := depthV_le_depthVList (List.mem_cons_self y ys)
              exact le_trans this hy
            have hdys : depthVList ys ≤ g := by
              simp only [depthVList] at hy; omega
            have hrec := ih g (by omega) y (encodeVList ys ++ bs) hdy
            simp only [List.length_cons, encodeVList, decodeVListN,
              List.append_assoc, hrec, ihy hdys bs, Option.map_some']
        simp [encodeV, decodeV, List.append_assoc, readVarint_varint, aux xs hxs rest]
      | .map kvs =>
        have hkvs : depthVMap kvs ≤ g := by
          simp only [depthV] at hdep; omega
        have aux : ∀ (ps : List (Value × Value)), depthVMap ps ≤ g → ∀ (bs : List Nat),
            decodeVMapN g ps.length (encodeVMap ps ++ bs) = some (ps, bs) := by
          intro ps
          induction ps with
          | nil => intro _ bs; simp [encodeVMap, decodeVMapN]
          | cons p ps ihp =>
            obtain ⟨pk, pv⟩ := p
            intro hp bs
            have hmem : (pk, pv) ∈ (pk, pv) :: ps := List.mem_cons_self _ _
            have hdp := depthV_le_depthVMap hmem
            have hdk : depthV pk ≤ g := le_trans hdp.1 hp
            have hdv : depthV pv ≤ g := le_trans hdp.2 hp
            have hdps : depthVMap ps ≤ g := by
              simp only [depthVMap] at hp; omega
            have hreck := ih g (by omega) pk (encodeV pv ++ (encodeVMap ps ++ bs)) hdk
            have hrecv := ih g (by omega) pv (encodeVMap ps ++ bs) hdv
            simp only [List.length_cons, encodeVMap, decodeVMapN,
              List.append_assoc, hreck, hrecv, ihp hdps bs, Option.map_some']
        simp [encodeV, decodeV, List.append_assoc, readVarint_varint, aux kvs hkvs rest]

mutual

theorem depthV_le_length_encodeV : ∀ (v : Value), depthV v ≤ (encodeV v).length
  | .nil => by simp [depthV, encodeV]
  | .bool false => by simp [depthV, encodeV]
  | .bool true => by simp [depthV, encodeV]
  | .int n => by simp [depthV, encodeV]
  | .float q => by simp [depthV, encodeV]
  | .str s => by simp [depthV, encodeV]
  | .bin b => by simp [depthV, encodeV]
  | .list xs => by
    have h := depthVList_le_length_encodeVList xs
    simp only [depthV, encodeV, List.length_cons, List.length_append]
    omega
  | .map kvs => by
    have h := depthVMap_le_length_encodeVMap kvs
    simp only [depthV, encodeV, List.length_cons, List.length_append]
    omega

theorem depthVList_le_length_encodeVList :
    ∀ (xs : List Value), depthVList xs ≤ (encodeVList xs).length
  | [] => by simp [depthVList, encodeVList]
  | v :: vs => by
    have h1 := depthV_le_length_encodeV v
    have h2 := depthVList_le_length_encodeVList vs
    simp only [depthVList, encodeVList, List.length_append]
    omega

theorem depthVMap_le_length_encodeVMap :
    ∀ (kvs : List (Value × Value)), depthVMap kvs ≤ (encodeVMap kvs).length
  | [] => by simp [depthVMap, encodeVMap]
  | (k, v) :: kvs => by
    have h1 := depthV_le_length_encodeV k
    have h2 := depthV_le_length_encodeV v
    have h3 := depthVMap_le_length_encodeVMap kvs
    simp only [depthVMap, encodeVMap, List.length_append]
    omega

end

/-- session_t.serialize (session.py lines 34-44): msgpack.packb of the
request, via the modelled codec. -/
def serialize (request : Value) : List Nat :=
  encodeV request

/-- session_t.deserialize (session.py lines 46-60): feeds the buffer to an
Unpacker, collects the unpacked messages and returns the first one, or None
when the buffer holds no complete message. -/
def deserialize (sbuf : List Nat) : Option Value :=
  match decodeV (sbuf.length + 1) sbuf with
  | some (v, _) => some v
  | none => none

theorem deserialize_serialize (v : Value) : deserialize (serialize v) = some v := by
  have hd : depthV v ≤ (encodeV v).length + 1 :=
    le_trans (depthV_le_length_encodeV v) (by omega)
  have h := decodeV_encodeV ((encodeV v).length + 1) v [] hd
  simp only [List.append_nil] at h
  simp [deserialize, serialize, h]

theorem deserialize_empty : deserialize [] = none := by
  simp [deserialize, decodeV]

/-- Byte list of a Python string literal (character codes). -/
def strBytes (s : String) : List Nat :=
  s.data.map Char.toNat

/-- api.COMMAND (api.py line 7): the key carrying the command tag. -/
def COMMAND : List Nat := strBytes "command"

/-- api.CMD_STATUS (api.py line 10). -/
def CMD_STATUS : List Nat := strBytes "status"

/-- api.CMD_START_TRACKING_TENNISBALL (api.py line 11). -/
def CMD_START_TRACKING_TENNISBALL : List Nat := strBytes "start_tracking_tennisball"

/-- api.CMD_STOP_TRACKING_TENNISBALL (api.py line 12). -/
def CMD_STOP_TRACKING_TENNISBALL : List Nat := strBytes "stop_tracking_tennisball"

/-- api.CMD_CALIBRATE_CAMERA (api.py line 13). -/
def CMD_CALIBRATE_CAMERA : List Nat := strBytes "calibrate_camera"

/-- api.CMD_GET_TENNISBALL_COORDS (api.py line 14); declared in the protocol
vocabulary but bound to no handler in server.message_handler. -/
def CMD_GET_TENNISBALL_COORDS : List Nat := strBytes "get_tennisball_coords"

/-- api.CMD_CONFIGURE_LED (api.py line 15). -/
def CMD_CONFIGURE_LED : List Nat := strBytes "configure_led"

/-- api.CMD_GET_TENNISCOURT_BOUNDARIES_REQ (api.py line 16). -/
def CMD_GET_TENNISCOURT_BOUNDARIES_REQ : List Nat := strBytes "get_tenniscourt_boundaries_req"

/-- api.CMD_GET_TENNISCOURT_BOUNDARIES_REP (api.py line 17). -/
def CMD_GET_TENNISCOURT_BOUNDARIES_REP : List Nat := strBytes "get_tenniscourt_boundaries_rep"

/-- api.CMD_START_SENDING_CAMERA_FEED (api.py line 20). -/
def CMD_START_SENDING_CAMERA_FEED : List Nat := strBytes "start_sending_camera_feed"

/-- api.CMD_STOP_SENDING_CAMERA_FEED (api.py line 21). -/
def CMD_STOP_SENDING_CAMERA_FEED : List Nat := strBytes "stop_sending_camera_feed"

/-- api.CMD_GET_CAMERA_FEED (api.py line 22). -/
def CMD_GET_CAMERA_FEED : List Nat := strBytes "get_camera_feed_req"

/-- api.CMD_CAMERA_FEED_DATA (api.py line 23). -/
def CMD_CAMERA_FEED_DATA : List Nat := strBytes "camera_feed_data"

/-- api.CMD_TEST_CAMERA_FPS_REQ (api.py line 24). -/
def CMD_TEST_CAMERA_FPS_REQ : List Nat := strBytes "test_camera_fps_req"

/-- api.CMD_TEST_CAMERA_FPS_REP (api.py line 25). -/
def CMD_TEST_CAMERA_FPS_REP : List Nat := strBytes "test_camera_fps_rep"

/-- messages.point3D (messages.py lines 46-59): a 3D point sub-message.
The Python constructor does not constrain the coordinate types, so the
coordinates are wire values (floats in practice). -/
structure point3D where
  x : Value
  y : Value
  z : Value

/-- An element of the corners list of get_tenniscourt_boundaries_rep:
either a point3D object or any other Python value (for corners decoded
from the wire: dicts and scalars). -/
inductive CornerItem where
  | pt (p : point3D)
  | raw (v : Value)

/-- String-keyed lookup in a decoded mapping (Python dict access).
Mappings rendered by the message model have distinct keys, so first-match
lookup agrees with Python dict semantics on every mapping used here. -/
def getKey : List (Value × Value) → List Nat → Option Value
  | [], _ => none
  | (k, v) :: rest, key =>
    match k with
    | .str s => if s == key then some v else getKey rest key
    | _ => getKey rest key

/-- point3D(**corner) (messages.py line 169): point3D.__init__ accepts
exactly the keyword arguments x, y and z and has no **kwargs, so a corner
dict with any other key, a missing key or a non-string key raises
TypeError (modelled as none). -/
def point3D_ofDict (kvs : List (Value × Value)) : Option point3D :=
  if kvs.all fun kv =>
      match kv.1 with
      | .str s => s == strBytes "x" || s == strBytes "y" || s == strBytes "z"
      | _ => false
  then
    match getKey kvs (strBytes "x"), getKey kvs (strBytes "y"),
        getKey kvs (strBytes "z") with
    | some vx, some vy, some vz => some ⟨vx, vy, vz⟩
    | _, _, _ => none
  else none

/-- One step of the corner-normalisation loop in
get_tenniscourt_boundaries_rep.__init__ (messages.py lines 167-171): a
dict is forced into a point3D (TypeError when its keys are not x, y, z);
any other element is appended unchanged. -/
def corner_convert : CornerItem → Option CornerItem
  | .raw (.map kvs) => (point3D_ofDict kvs).map .pt
  | c => some c

/-- get_tenniscourt_boundaries_rep.__init__ (messages.py lines 163-172):
iterates over a snapshot (list(corners)) of the corners argument while
appending one entry per original element back onto the same list, then
stores that list, so the stored corners are the input elements followed by
their converted copies. -/
def get_tenniscourt_boundaries_rep_init (corners : List CornerItem) :
    Option (List CornerItem) :=
  (corners.mapM corner_convert).map fun conv => corners ++ conv

/-- The typed message records of messages.py, one constructor per class,
with the command-specific fields of spec section 3 (the Python
constructors do not typecheck their arguments; field types here follow
the message contract).  The classes test_camera_fps_req and
test_camera_fps_rep are referenced by server.py and client.py and their
command strings are declared in api.py, but they are absent from
messages.py; those two variants are modelled from the spec
(test_camera_fps request and test_camera_fps_result{fps} response). -/
inductive Message where
  | status_rep (cmd_id : List Nat) (successful : Bool) (msg : List Nat)
  | start_tracking_req
  | stop_tracking_req
  | calibrate_camera_req
  | configure_led_req (period_ms : Value) (duty_cycle_percent : Value)
  | get_tenniscourt_boundaries_req
  | get_tenniscourt_boundaries_rep (corners : List CornerItem)
  | start_sending_camera_feed_req
  | stop_sending_camera_feed_req
  | get_camera_feed_req
  | camera_feed_data (left_feed : List Nat) (right_feed : List Nat)
  | test_camera_fps_req
  | test_camera_fps_rep (fps : ℚ)

/-- sub_message_t.__iter__ applied to an element of a list field
(messages.py lines 18-25): nested sub-messages render as dicts, anything
else passes through unchanged. -/
def cornerToValue : CornerItem → Value
  | .pt p => .map [(.str (strBytes "x"), p.x), (.str (strBytes "y"), p.y),
                   (.str (strBytes "z"), p.z)]
  | .raw v => v

/-- dict(m) via sub_message_t.__iter__ (messages.py lines 16-29): the
key-value mapping of a message in field insertion order (command first,
set by message_t.__init__ before the subclass fields). -/
def Message.toMapping : Message → Value
  | .status_rep cmd_id successful msg =>
    .map [(.str COMMAND, .str CMD_STATUS),
          (.str (strBytes "cmd_id"), .str cmd_id),
          (.str (strBytes "successful"), .bool successful),
          (.str (strBytes "msg"), .str msg)]
  | .start_tracking_req =>
    .map [(.str COMMAND, .str CMD_START_TRACKING_TENNISBALL)]
  | .stop_tracking_req =>
    .map [(.str COMMAND, .str CMD_STOP_TRACKING_TENNISBALL)]
  | .calibrate_camera_req =>
    .map [(.str COMMAND, .str CMD_CALIBRATE_CAMERA)]
  | .configure_led_req period_ms duty_cycle_percent =>
    .map [(.str COMMAND, .str CMD_CONFIGURE_LED),
          (.str (strBytes "period_ms"), period_ms),
          (.str (strBytes "duty_cycle_percent"), duty_cycle_percent)]
  | .get_tenniscourt_boundaries_req =>
    .map [(.str COMMAND, .str CMD_GET_TENNISCOURT_BOUNDARIES_REQ)]
  | .get_tenniscourt_boundaries_rep corners =>
    .map [(.str COMMAND, .str CMD_GET_TENNISCOURT_BOUNDARIES_REP),
          (.str (strBytes "corners"), .list (corners.map cornerToValue))]
  | .start_sending_camera_feed_req =>
    .map [(.str COMMAND, .str CMD_START_SENDING_CAMERA_FEED)]
  | .stop_sending_camera_feed_req =>
    .map [(.str COMMAND, .str CMD_STOP_SENDING_CAMERA_FEED)]
  | .get_camera_feed_req =>
    .map [(.str COMMAND, .str CMD_GET_CAMERA_FEED)]
  | .camera_feed_data left_feed right_feed =>
    .map [(.str COMMAND, .str CMD_CAMERA_FEED_DATA),
          (.str (strBytes "left_feed"), .str left_feed),
          (.str (strBytes "right_feed"), .str right_feed)]
  | .test_camera_fps_req =>
    .map [(.str COMMAND, .str CMD_TEST_CAMERA_FPS_REQ)]
  | .test_camera_fps_rep fps =>
    .map [(.str COMMAND, .str CMD_TEST_CAMERA_FPS_REP),
          (.str (strBytes "fps"), .float fps)]

/-- Rebuilding a typed message from a decoded wire mapping by invoking the
variant's constructor with the mapping as keyword arguments, exactly as
server.py and client.py do (messages.X(**reply)); dispatch is on the
command tag.  Required constructor arguments must be present (TypeError,
modelled as none, otherwise); extra keys are absorbed by **kwargs;
status_rep's msg argument defaults to the empty string.  The
get_tenniscourt_boundaries_rep branch runs the corner-normalisation of
its constructor on the decoded corner dicts. -/
def Message.ofMapping : Value → Option Message
  | .map kvs =>
    match getKey kvs COMMAND with
    | some (.str c) =>
      if c == CMD_STATUS then
        match getKey kvs (strBytes "cmd_id"), getKey kvs (strBytes "successful") with
        | some (.str cid), some (.bool b) =>
          match getKey kvs (strBytes "msg") with
          | some (.str m) => some (.status_rep cid b m)
          | none => some (.status_rep cid b [])
          | some _ => none
        | _, _ => none
      else if c == CMD_START_TRACKING_TENNISBALL then some .start_tracking_req
      else if c == CMD_STOP_TRACKING_TENNISBALL then some .stop_tracking_req
      else if c == CMD_CALIBRATE_CAMERA then some .calibrate_camera_req
      else if c == CMD_CONFIGURE_LED then
        match getKey kvs (strBytes "period_ms"), getKey kvs (strBytes "duty_cycle_percent") with
        | some p, some d => some (.configure_led_req p d)
        | _, _ => none
      else if c == CMD_GET_TENNISCOURT_BOUNDARIES_REQ then
        some .get_tenniscourt_boundaries_req
      else if c == CMD_GET_TENNISCOURT_BOUNDARIES_REP then
        match getKey kvs (strBytes "corners") with
        | some (.list cs) =>
          (get_tenniscourt_boundaries_rep_init (cs.map .raw)).map
            .get_tenniscourt_boundaries_rep
        | _ => none
      else if c == CMD_START_SENDING_CAMERA_FEED then some .start_sending_camera_feed_req
      else if c == CMD_STOP_SENDING_CAMERA_FEED then some .stop_sending_camera_feed_req
      else if c == CMD_GET_CAMERA_FEED then some .get_camera_feed_req
      else if c == CMD_CAMERA_FEED_DATA then
        match getKey kvs (strBytes "left_feed"), getKey kvs (strBytes "right_feed") with
        | some (.str l), some (.str r) => some (.camera_feed_data l r)
        | _, _ => none
      else if c == CMD_TEST_CAMERA_FPS_REQ then some .test_camera_fps_req
      else if c == CMD_TEST_CAMERA_FPS_REP then
        match getKey kvs (strBytes "fps") with
        | some (.float q) => some (.test_camera_fps_rep q)
        | _ => none
      else none
    | _ => none
  | _ => none

/-- The full round trip of the testable property in spec section 8:
render the message to its wire mapping, encode, decode, rebuild. -/
def messageRoundtrip (m : Message) : Option Message :=
  (deserialize (serialize m.toMapping)).bind Message.ofMapping

theorem messageRoundtrip_eq_ofMapping_toMapping (m : Message) :
    messageRoundtrip m = Message.ofMapping m.toMapping := by
  simp [messageRoundtrip, deserialize_serialize]

/-- A representative court-boundaries response: one point3D corner. -/
def boundariesRepExample : Message :=
  .get_tenniscourt_boundaries_rep [.pt ⟨.float 1, .float 2, .float 3⟩]

/-- What the round trip actually rebuilds from boundariesRepExample: the
constructor appends the converted corner to the decoded corner list, so
the corners double (the decoded dict followed by its point3D copy). -/
def boundariesRepDoubled : Message :=
  .get_tenniscourt_boundaries_rep
    [.raw (.map [(.str (strBytes "x"), .float 1), (.str (strBytes "y"), .float 2),
                 (.str (strBytes "z"), .float 3)]),
     .pt ⟨.float 1, .float 2, .float 3⟩]

/-- Claim C1: for every Message variant, decode(encode(toMapping(m))) == m.  This
fails on the code: rebuilding a get_tenniscourt_boundaries_rep from its own
decoded mapping yields a message whose corners list holds two entries (the
decoded dict and its point3D copy) instead of the original single corner,
because the constructor appends to the corner list it was given instead of
replacing dict corners as its comment announces. -/
theorem roundtrip_breaks_on_boundaries_rep :
    messageRoundtrip boundariesRepExample = some boundariesRepDoubled ∧
      messageRoundtrip boundariesRepExample ≠ some boundariesRepExample := by
  have heval : messageRoundtrip boundariesRepExample = some boundariesRepDoubled := by
    rw [messageRoundtrip_eq_ofMapping_toMapping]
    rfl
  refine ⟨heval, ?_⟩
  rw [heval]
  intro h
  have h2 := Option.some.inj h
  simp only [boundariesRepDoubled, boundariesRepExample,
    Message.get_tenniscourt_boundaries_rep.injEq] at h2
  have hlen := congrArg List.length h2
  simp at hlen

/-- Python/zmq exception classes raised by the modelled code.  keyError is
the failed dict lookup that the spec taxonomy calls UnknownCommandError;
notImplementedError is its UnsupportedOperationError; zmqAgain is
zmq.error.Again, raised by a non-blocking receive with nothing pending. -/
inductive pyErr where
  | keyError
  | typeError
  | attributeError
  | zeroDivisionError
  | zmqAgain
  | notImplementedError
deriving DecidableEq

/-- A zmq socket as owned by one session: the endpoint it was bound or
connected to, the frames queued for receive, and the frames transmitted. -/
structure Socket where
  endpoint : String
  bound : Bool
  pending : List (List Nat)
  sent : List (List Nat)

/-- session_t.__init__ (session.py lines 17-22): a session holds its port
and an optional live socket handle, None until start. -/
structure SessionState where
  port : Nat
  socket : Option Socket

/-- session_t.is_connected (session.py lines 24-32): the session counts as
connected exactly when a socket handle is present (bool(self.socket)). -/
def is_connected (st : SessionState) : Bool :=
  st.socket.isSome

/-- The endpoint string interpolated by the start methods. -/
def tcpEndpoint (ip : String) (port : Nat) : String :=
  "tcp://" ++ ip ++ ":" ++ toString port

/-- zmq_session_t.start (session.py lines 122-126): when not connected,
creates a fresh socket and connects it to tcp://ip:port; when already
connected, does nothing. -/
def zmq_session_start (ip : String) (st : SessionState) : SessionState :=
  if is_connected st then st
  else { st with socket := some ⟨tcpEndpoint ip st.port, false, [], []⟩ }

/-- The start override shared verbatim by the reply, push and publish
sessions (session.py lines 146-150, 266-270 and 338-342): identical to
zmq_session_t.start except that the fresh socket binds the endpoint. -/
def zmq_bind_session_start (ip : String) (st : SessionState) : SessionState :=
  if is_connected st then st
  else { st with socket := some ⟨tcpEndpoint ip st.port, true, [], []⟩ }

/-- zmq_session_t.stop (session.py lines 128-131): closes the socket when
one is present and clears the handle either way. -/
def zmq_session_stop (st : SessionState) : SessionState :=
  { st with socket := none }

/-- Outcome of a session receive call: a decoded message (None when the
received frame decodes to zero messages) together with the successor
session state, a raised Python exception, or blocking forever awaiting a
frame that never arrives. -/
inductive RecvResult where
  | msg (v : Option Value) (st : SessionState)
  | exn (e : pyErr)
  | blocked

/-- zmq_reply_session_t.receive (session.py lines 347-360): socket.recv
with flags = zmq.NOBLOCK when block is false; per the zmq contract a
non-blocking recv with no pending frame raises zmq.error.Again, a blocking
recv waits; a received frame is handed to deserialize. -/
def zmq_reply_receive (block : Bool) (st : SessionState) : RecvResult :=
  match st.socket with
  | none => .exn .attributeError
  | some sock =>
    match sock.pending with
    | [] => if block then .blocked else .exn .zmqAgain
    | f :: rest => .msg (deserialize f) { st with socket := some { sock with pending := rest } }

/-- zmq_pull_session_t.receive (session.py lines 306-319): identical body
to the reply session's receive. -/
def zmq_pull_receive (block : Bool) (st : SessionState) : RecvResult :=
  match st.socket with
  | none => .exn .attributeError
  | some sock =>
    match sock.pending with
    | [] => if block then .blocked else .exn .zmqAgain
    | f :: rest => .msg (deserialize f) { st with socket := some { sock with pending := rest } }

/-- zmq_request_session_t.receive (session.py lines 392-405): identical
body to the reply session's receive. -/
def zmq_request_receive (block : Bool) (st : SessionState) : RecvResult :=
  match st.socket with
  | none => .exn .attributeError
  | some sock =>
    match sock.pending with
    | [] => if block then .blocked else .exn .zmqAgain
    | f :: rest => .msg (deserialize f) { st with socket := some { sock with pending := rest } }

/-- zmq_pull_session_t.send (session.py lines 302-304): ZMQ Pull sessions
do not support sending; the method raises NotImplementedError without
touching the socket, so nothing is transmitted. -/
def zmq_pull_send (_request : Value) (_st : SessionState) :
    Except pyErr (Unit × SessionState) :=
  .error .notImplementedError

/-- zmq_subscription_session_t.send (session.py lines 207-209): ZMQ Sub
sessions do not support sending; raises NotImplementedError without
touching the socket. -/
def zmq_subscription_send (_request : Value) (_st : SessionState) :
    Except pyErr (Unit × SessionState) :=
  .error .notImplementedError

/-- zmq_push_session_t.receive (session.py lines 281-283): ZMQ Push
sessions do not support receiving; raises NotImplementedError without
touching the socket, so no pending frame is consumed. -/
def zmq_push_receive (_st : SessionState) :
    Except pyErr (Option Value × SessionState) :=
  .error .notImplementedError

/-- zmq_publish_session_t.receive (session.py lines 163-165): ZMQ Pub
sessions do not support receiving; raises NotImplementedError without
touching the socket. -/
def zmq_publish_receive (_st : SessionState) :
    Except pyErr (Option Value × SessionState) :=
  .error .notImplementedError

/-- Reads a receive outcome the way the claim does: true exactly when the
call returned the no-message sentinel (a None message). -/
def isSentinelResult : RecvResult → Bool
  | .msg none _ => true
  | _ => false

/-- True exactly when the receive call raised an exception. -/
def isErrorResult : RecvResult → Bool
  | .exn _ => true
  | _ => false

/-- A connected reply session with nothing pending. -/
def idleReplySession : SessionState :=
  ⟨5555, some ⟨tcpEndpoint "127.0.0.1" 5555, true, [], []⟩⟩

/-- Claim C3 as stated is false at a concrete input: a non-blocking
receive on a connected reply session with no pending message does not
return the no-message sentinel; it raises zmq.error.Again. -/
theorem receive_nonblock_empty_raises :
    isSentinelResult (zmq_reply_receive false idleReplySession) = false ∧
    isErrorResult (zmq_reply_receive false idleReplySession) = true ∧
    zmq_reply_receive false idleReplySession = .exn .zmqAgain :=
  ⟨rfl, rfl, rfl⟩

/-- Claim C3 amended: for every session pattern supporting receive (REPLY,
PULL, REQUEST), receive with block=false and nothing pending raises the
would-block error zmq.Again rather than returning a sentinel (with
block=true it blocks); the no-message sentinel None is returned only when
a received frame deserializes to zero messages, e.g. an empty frame. -/
theorem receive_nonblock_empty_behaviour (st : SessionState) (sock : Socket)
    (port : Nat) (ep : String) (bound : Bool) (sentQ : List (List Nat))
    (hs : st.socket = some sock) (hp : sock.pending = []) :
    zmq_reply_receive false st = .exn .zmqAgain ∧
    zmq_pull_receive false st = .exn .zmqAgain ∧
    zmq_request_receive false st = .exn .zmqAgain ∧
    zmq_reply_receive true st = .blocked ∧
    zmq_reply_receive false ⟨port, some ⟨ep, bound, [[]], sentQ⟩⟩ =
      .msg none ⟨port, some ⟨ep, bound, [], sentQ⟩⟩ := by
  refine ⟨?_, ?_, ?_, ?_, ?_⟩ <;>
    simp [zmq_reply_receive, zmq_pull_receive, zmq_request_receive, hs, hp,
      deserialize_empty]

/-- Witness for the amended C3 at a concrete idle session. -/
theorem receive_nonblock_empty_behaviour_witness :
    zmq_reply_receive false idleReplySession = .exn .zmqAgain ∧
    zmq_pull_receive false idleReplySession = .exn .zmqAgain ∧
    zmq_request_receive false idleReplySession = .exn .zmqAgain ∧
    zmq_reply_receive true idleReplySession = .blocked ∧
    zmq_reply_receive false ⟨5555, some ⟨"e", true, [[]], []⟩⟩ =
      .msg none ⟨5555, some ⟨"e", true, [], []⟩⟩ :=
  receive_nonblock_empty_behaviour idleReplySession
    ⟨tcpEndpoint "127.0.0.1" 5555, true, [], []⟩ 5555 "e" true [] rfl rfl

/-- Claim C6: send on a PULL or SUBSCRIBE session and receive on a PUSH or
PUBLISH session fail with NotImplementedError (the spec taxonomy's
UnsupportedOperationError) for every session state and message, and, the
error being raised before the socket is touched, transmit or consume
nothing. -/
theorem unsupported_ops_raise (request : Value) (st : SessionState) :
    zmq_pull_send request st = .error .notImplementedError ∧
    zmq_subscription_send request st = .error .notImplementedError ∧
    zmq_push_receive st = .error .notImplementedError ∧
    zmq_publish_receive st = .error .notImplementedError :=
  ⟨rfl, rfl, rfl, rfl⟩

/-- Claim C7: start is idempotent (a second start with the same address is
a no-op), stop is idempotent, after a start the session is connected and
after a stop it is not; likewise for the bind-variant start used by the
reply, push and publish sessions. -/
theorem start_stop_idempotent (ip : String) (st : SessionState) :
    zmq_session_start ip (zmq_session_start ip st) = zmq_session_start ip st ∧
    zmq_session_stop (zmq_session_stop st) = zmq_session_stop st ∧
    is_connected (zmq_session_start ip st) = true ∧
    is_connected (zmq_session_stop st) = false ∧
    zmq_bind_session_start ip (zmq_bind_session_start ip st) =
      zmq_bind_session_start ip st ∧
    is_connected (zmq_bind_session_start ip st) = true := by
  cases st with
  | mk port socket =>
    cases socket <;>
      simp [zmq_session_start, zmq_bind_session_start, zmq_session_stop, is_connected]

/-- The external collaborators reached by the server handlers, as oracles:
per-capture encoded stereo frames (CameraFeed.getStereoFrames composed
with cv2.imencode and base64.b64encode, all external to the core), the
wall-clock seconds the fps test measures when it starts at a given capture
count (datetime, external), and the outcomes of the three calibration
collaborator calls (camera_calibration.calibrate_camera on the left and
right image sets and save_camera_calibration), errors carrying str(e). -/
structure ServerEnv where
  stereo : Nat → List Nat × List Nat
  elapsed : Nat → ℚ
  calibrateLeft : Except (List Nat) Unit
  calibrateRight : Except (List Nat) Unit
  saveCalibration : Except (List Nat) Unit

/-- The mutable server run-state touched by the handlers (server.__init__,
server.py lines 19-29): the send_camera_feed flag, plus the number of
camera captures performed so far (the camera handle's observable). -/
structure ServerSt where
  send_camera_feed : Bool
  captures : Nat

/-- self.camera.getStereoFrames() as observed by the handlers: yields the
next encoded stereo pair from the camera oracle and advances the capture
counter. -/
def getStereoFrames (env : ServerEnv) (st : ServerSt) :
    (List Nat × List Nat) × ServerSt :=
  (env.stereo st.captures, { st with captures := st.captures + 1 })

/-- messages.X(**reply): keyword expansion requires every key of the
mapping to be a string (TypeError otherwise); constructors whose only
parameter is **kwargs then absorb every keyword. -/
def kwargsOk (kvs : List (Value × Value)) : Bool :=
  kvs.all fun kv => match kv.1 with | .str _ => true | _ => false

/-- server.start_tracking_tennisball (server.py lines 62-68): parses the
request and replies with a successful status echoing the command. -/
def start_tracking_tennisball (kvs : List (Value × Value)) (st : ServerSt) :
    Except pyErr (Message × ServerSt) :=
  if kwargsOk kvs then .ok (.status_rep CMD_START_TRACKING_TENNISBALL true [], st)
  else .error .typeError

/-- server.stop_tracking_tennisball (server.py lines 70-76). -/
def stop_tracking_tennisball (kvs : List (Value × Value)) (st : ServerSt) :
    Except pyErr (Message × ServerSt) :=
  if kwargsOk kvs then .ok (.status_rep CMD_STOP_TRACKING_TENNISBALL true [], st)
  else .error .typeError

/-- server.calibrate_camera (server.py lines 78-115) as evidently
intended: calibrate the left camera, then the right, then persist the
combined artifact, catching any exception of the three collaborator calls
and converting it into a failed status carrying the cause.  The source
spells each of the three message accumulations as msg+= =, a Python
syntax error (server.py cannot be parsed as written); the surrounding
try/except structure is modelled with the evident msg += reading. -/
def calibrate_camera (env : ServerEnv) (kvs : List (Value × Value)) (st : ServerSt) :
    Except pyErr (Message × ServerSt) :=
  if kwargsOk kvs then
    match env.calibrateLeft with
    | .error e => .ok (.status_rep CMD_CALIBRATE_CAMERA false
        (strBytes "Failed to calibrate the left camera!\n" ++ e), st)
    | .ok _ =>
      match env.calibrateRight with
      | .error e => .ok (.status_rep CMD_CALIBRATE_CAMERA false
          (strBytes "Failed to calibrate the right camera!\n" ++ e), st)
      | .ok _ =>
        match env.saveCalibration with
        | .error e => .ok (.status_rep CMD_CALIBRATE_CAMERA false
            (strBytes "Failed to save the calibrate data!\n" ++ e), st)
        | .ok _ => .ok (.status_rep CMD_CALIBRATE_CAMERA true [], st)
  else .error .typeError

/-- server.blink_led (server.py lines 117-123): configure_led_req(**reply)
requires the period_ms and duty_cycle_percent keywords (TypeError when
missing), then replies with a successful status. -/
def blink_led (kvs : List (Value × Value)) (st : ServerSt) :
    Except pyErr (Message × ServerSt) :=
  if kwargsOk kvs then
    match getKey kvs (strBytes "period_ms"),
        getKey kvs (strBytes "duty_cycle_percent") with
    | some _, some _ => .ok (.status_rep CMD_CONFIGURE_LED true [], st)
    | _, _ => .error .typeError
  else .error .typeError

/-- server.start_sending_camera_feed (server.py lines 127-138): sets the
flag when it was clear, otherwise fails with the already-running
message; either way replies with a status echoing the command. -/
def start_sending_camera_feed (kvs : List (Value × Value)) (st : ServerSt) :
    Except pyErr (Message × ServerSt) :=
  if kwargsOk kvs then
    if !st.send_camera_feed then
      .ok (.status_rep CMD_START_SENDING_CAMERA_FEED true [],
           { st with send_camera_feed := true })
    else
      .ok (.status_rep CMD_START_SENDING_CAMERA_FEED false
           (strBytes "Camera Feed is already running"), st)
  else .error .typeError

/-- server.stop_sending_camera_feed (server.py lines 140-151): clears the
flag when it was set, otherwise fails with the not-running message. -/
def stop_sending_camera_feed (kvs : List (Value × Value)) (st : ServerSt) :
    Except pyErr (Message × ServerSt) :=
  if kwargsOk kvs then
    if st.send_camera_feed then
      .ok (.status_rep CMD_STOP_SENDING_CAMERA_FEED true [],
           { st with send_camera_feed := false })
    else
      .ok (.status_rep CMD_STOP_SENDING_CAMERA_FEED false
           (strBytes "Camera Feed is not currently running"), st)
  else .error .typeError

/-- server.get_camera_feed (server.py lines 153-160): parses the request
(via the spec-modelled test_camera_fps_req, which absorbs every keyword),
captures one stereo pair and returns it inline as camera_feed_data. -/
def get_camera_feed (env : ServerEnv) (kvs : List (Value × Value)) (st : ServerSt) :
    Except pyErr (Message × ServerSt) :=
  if kwargsOk kvs then
    let r := getStereoFrames env st
    .ok (.camera_feed_data r.1.1 r.1.2, r.2)
  else .error .typeError

/-- The capture loop of server.test_camera_fps: n iterations of
self.camera.getStereoFrames() with the frames discarded. -/
def captureFrames : Nat → ServerEnv → ServerSt → ServerSt
  | 0, _, st => st
  | n + 1, env, st => captureFrames n env (getStereoFrames env st).2

/-- server.test_camera_fps (server.py lines 162-172): parses the request
(the source reuses stop_sending_camera_feed_req, which absorbs every
keyword), captures number_of_frames = 100 frames, measures the elapsed
wall time and replies fps = 100 / elapsed seconds (ZeroDivisionError when
the measured time is zero); the reply class test_camera_fps_rep is
modelled from the spec (absent from messages.py). -/
def test_camera_fps (env : ServerEnv) (kvs : List (Value × Value)) (st : ServerSt) :
    Except pyErr (Message × ServerSt) :=
  if kwargsOk kvs then
    let st2 := captureFrames 100 env st
    let dt := env.elapsed st.captures
    if dt = 0 then .error .zeroDivisionError
    else .ok (.test_camera_fps_rep (100 / dt), st2)
  else .error .typeError

/-- Membership of a command tag in server.message_handler (server.py
lines 31-41; the table built once at construction). -/
def inHandlerTable (c : List Nat) : Bool :=
  c == CMD_START_TRACKING_TENNISBALL || c == CMD_STOP_TRACKING_TENNISBALL ||
  c == CMD_CALIBRATE_CAMERA || c == CMD_CONFIGURE_LED ||
  c == CMD_START_SENDING_CAMERA_FEED || c == CMD_STOP_SENDING_CAMERA_FEED ||
  c == CMD_GET_CAMERA_FEED || c == CMD_TEST_CAMERA_FPS_REQ

/-- One dispatch of the control loop (server.py lines 183-191): read
reply[api.COMMAND] (KeyError when the key is missing, TypeError when the
reply is not a mapping), look the tag up in server.message_handler
(KeyError when absent — the loop's fatal unknown-command fault), invoke
the handler and hand back its response. -/
def dispatch (env : ServerEnv) (st : ServerSt) (reply : Value) :
    Except pyErr (Option Message × ServerSt) :=
  match reply with
  | .map kvs =>
    match getKey kvs COMMAND with
    | some (.str c) =>
      if c == CMD_START_TRACKING_TENNISBALL then
        (start_tracking_tennisball kvs st).map fun r => (some r.1, r.2)
      else if c == CMD_STOP_TRACKING_TENNISBALL then
        (stop_tracking_tennisball kvs st).map fun r => (some r.1, r.2)
      else if c == CMD_CALIBRATE_CAMERA then
        (calibrate_camera env kvs st).map fun r => (some r.1, r.2)
      else if c == CMD_CONFIGURE_LED then
        (blink_led kvs st).map fun r => (some r.1, r.2)
      else if c == CMD_START_SENDING_CAMERA_FEED then
        (start_sending_camera_feed kvs st).map fun r => (some r.1, r.2)
      else if c == CMD_STOP_SENDING_CAMERA_FEED then
        (stop_sending_camera_feed kvs st).map fun r => (some r.1, r.2)
      else if c == CMD_GET_CAMERA_FEED then
        (get_camera_feed env kvs st).map fun r => (some r.1, r.2)
      else if c == CMD_TEST_CAMERA_FPS_REQ then
        (test_camera_fps env kvs st).map fun r => (some r.1, r.2)
      else .error .keyError
    | some _ => .error .keyError
    | none => .error .keyError
  | _ => .error .typeError

/-- Outcome of one ctrl_session.receive() call as seen by the control
loop: a raised exception (swallowed by the bare except), a None reply
(skipped), or a decoded reply mapping. -/
inductive LoopEvent where
  | recvErr
  | noMsg
  | msg (v : Value)

/-- server.run (server.py lines 174-193) over the sequence of receive
outcomes observed while the server stays connected: receive failures are
swallowed, None replies are skipped, decoded replies are dispatched and
the handler responses sent back over the reply session in order; an
exception escaping dispatch kills the loop thread, dropping the remaining
events.  Yields the responses sent, the final server state, and the
escaped exception if any. -/
def server_run : ServerEnv → ServerSt → List LoopEvent →
    List Message × ServerSt × Option pyErr
  | _, st, [] => ([], st, none)
  | env, st, e :: rest =>
    match e with
    | .recvErr => server_run env st rest
    | .noMsg => server_run env st rest
    | .msg v =>
      match dispatch env st v with
      | .error pe => ([], st, some pe)
      | .ok (resp, st2) =>
        let r := server_run env st2 rest
        (resp.toList ++ r.1, r.2.1, r.2.2)

/-- A well-formed request in the sense of the dispatcher claim: a decoded
mapping with string keys whose command tag is present and bound in
server.message_handler, carrying the keywords its message constructor
requires (only configure_led requires any). -/
def wellFormedReq (v : Value) : Bool :=
  match v with
  | .map kvs =>
    kwargsOk kvs &&
    match getKey kvs COMMAND with
    | some (.str c) =>
      (c == CMD_START_TRACKING_TENNISBALL || c == CMD_STOP_TRACKING_TENNISBALL ||
       c == CMD_CALIBRATE_CAMERA ||
       c == CMD_START_SENDING_CAMERA_FEED || c == CMD_STOP_SENDING_CAMERA_FEED ||
       c == CMD_GET_CAMERA_FEED || c == CMD_TEST_CAMERA_FPS_REQ) ||
      (c == CMD_CONFIGURE_LED &&
        (getKey kvs (strBytes "period_ms")).isSome &&
        (getKey kvs (strBytes "duty_cycle_percent")).isSome)
    | _ => false
  | _ => false

/-- Response/request correlation (the pairing invariant of spec section
3): status responses echo the request's command tag in cmd_id;
get_camera_feed is answered by camera_feed_data and test_camera_fps by
test_camera_fps_rep. -/
def correlates (req : Value) (resp : Message) : Bool :=
  match req with
  | .map kvs =>
    match getKey kvs COMMAND with
    | some (.str c) =>
      if c == CMD_GET_CAMERA_FEED then
        match resp with | .camera_feed_data _ _ => true | _ => false
      else if c == CMD_TEST_CAMERA_FPS_REQ then
        match resp with | .test_camera_fps_rep _ => true | _ => false
      else
        match resp with | .status_rep cid _ _ => cid == c | _ => false
    | _ => false
  | _ => false


theorem dispatch_wellFormed (env : ServerEnv) (st : ServerSt) (v : Value)
    (hwf : wellFormedReq v = true) (helapsed : ∀ n, env.elapsed n ≠ 0) :
    ∃ m st2, dispatch env st v = .ok (some m, st2) ∧ correlates v m = true := by
  cases v with
  | map kvs =>
    simp only [wellFormedReq, Bool.and_eq_true] at hwf
    obtain ⟨hkw, hcmd⟩ := hwf
    cases hgk : getKey kvs COMMAND with
    | none => rw [hgk] at hcmd; cases hcmd
    | some cv =>
      cases cv with
      | str c =>
        rw [hgk] at hcmd
        by_cases h1 : c = CMD_START_TRACKING_TENNISBALL
        · subst h1
          refine ⟨.status_rep CMD_START_TRACKING_TENNISBALL true [], st, ?_, ?_⟩
          · simp [dispatch, Except.map, hgk, start_tracking_tennisball, hkw]
          · simp [correlates, hgk,
              show CMD_START_TRACKING_TENNISBALL ≠ CMD_GET_CAMERA_FEED from by decide,
              show CMD_START_TRACKING_TENNISBALL ≠ CMD_TEST_CAMERA_FPS_REQ from by decide]
        · by_cases h2 : c = CMD_STOP_TRACKING_TENNISBALL
          · subst h2
            refine ⟨.status_rep CMD_STOP_TRACKING_TENNISBALL true [], st, ?_, ?_⟩
            · simp [dispatch, Except.map, hgk, h1, stop_tracking_tennisball, hkw]
            · simp [correlates, hgk,
                show CMD_STOP_TRACKING_TENNISBALL ≠ CMD_GET_CAMERA_FEED from by decide,
                show CMD_STOP_TRACKING_TENNISBALL ≠ CMD_TEST_CAMERA_FPS_REQ from by decide]
          · by_cases h3 : c = CMD_CALIBRATE_CAMERA
            · subst h3
              have hcal : ∃ ok msg,
                  calibrate_camera env kvs st =
                    .ok (.status_rep CMD_CALIBRATE_CAMERA ok msg, st) := by
                unfold calibrate_camera
                rw [if_pos hkw]
                cases env.calibrateLeft with
                | error e => exact ⟨false, _, rfl⟩
                | ok u =>
                  cases env.calibrateRight with
                  | error e => exact ⟨false, _, rfl⟩
                  | ok u2 =>
                    cases env.saveCalibration with
                    | error e => exact ⟨false, _, rfl⟩
                    | ok u3 => exact ⟨true, [], rfl⟩
              obtain ⟨ok, msg, hcal⟩ := hcal
              refine ⟨.status_rep CMD_CALIBRATE_CAMERA ok msg, st, ?_, ?_⟩
              · simp [dispatch, Except.map, hgk, h1, h2, hcal]
              · simp [correlates, hgk,
                  show CMD_CALIBRATE_CAMERA ≠ CMD_GET_CAMERA_FEED from by decide,
                  show CMD_CALIBRATE_CAMERA ≠ CMD_TEST_CAMERA_FPS_REQ from by decide]
            · by_cases h4 : c = CMD_CONFIGURE_LED
              · subst h4
                simp only [Bool.or_eq_true, Bool.and_eq_true, beq_iff_eq,
                  Option.isSome_iff_exists] at hcmd
                rcases hcmd with hbad | ⟨⟨-, ⟨p, hp⟩⟩, ⟨d, hd⟩⟩
                · exact absurd hbad (by decide)
                · refine ⟨.status_rep CMD_CONFIGURE_LED true [], st, ?_, ?_⟩
                  · simp [dispatch, Except.map, hgk, h1, h2, h3, blink_led, hkw, hp, hd]
                  · simp [correlates, hgk,
                      show CMD_CONFIGURE_LED ≠ CMD_GET_CAMERA_FEED from by decide,
                      show CMD_CONFIGURE_LED ≠ CMD_TEST_CAMERA_FPS_REQ from by decide]
              · by_cases h5 : c = CMD_START_SENDING_CAMERA_FEED
                · subst h5
                  have hcor : correlates (.map kvs)
                      (.status_rep CMD_START_SENDING_CAMERA_FEED true []) = true ∧
                      correlates (.map kvs)
                      (.status_rep CMD_START_SENDING_CAMERA_FEED false
                        (strBytes "Camera Feed is already running")) = true := by
                    constructor <;>
                      simp [correlates, hgk,
                        show CMD_START_SENDING_CAMERA_FEED ≠ CMD_GET_CAMERA_FEED from by decide,
                        show CMD_START_SENDING_CAMERA_FEED ≠ CMD_TEST_CAMERA_FPS_REQ from by decide]
                  cases hflag : st.send_camera_feed with
                  | false =>
                    exact ⟨.status_rep CMD_START_SENDING_CAMERA_FEED true [],
                      { st with send_camera_feed := true },
                      by simp [dispatch, Except.map, hgk, h1, h2, h3, h4,
                        start_sending_camera_feed, hkw, hflag], hcor.1⟩
                  | true =>
                    exact ⟨.status_rep CMD_START_SENDING_CAMERA_FEED false
                        (strBytes "Camera Feed is already running"), st,
                      by simp [dispatch, Except.map, hgk, h1, h2, h3, h4,
                        start_sending_camera_feed, hkw, hflag], hcor.2⟩
                · by_cases h6 : c = CMD_STOP_SENDING_CAMERA_FEED
                  · subst h6
                    have hcor : correlates (.map kvs)
                        (.status_rep CMD_STOP_SENDING_CAMERA_FEED true []) = true ∧
                        correlates (.map kvs)
                        (.status_rep CMD_STOP_SENDING_CAMERA_FEED false
                          (strBytes "Camera Feed is not currently running")) = true := by
                      constructor <;>
                        simp [correlates, hgk,
                          show CMD_STOP_SENDING_CAMERA_FEED ≠ CMD_GET_CAMERA_FEED from by decide,
                          show CMD_STOP_SENDING_CAMERA_FEED ≠ CMD_TEST_CAMERA_FPS_REQ from by decide]
                    cases hflag : st.send_camera_feed with
                    | true =>
                      exact ⟨.status_rep CMD_STOP_SENDING_CAMERA_FEED true [],
                        { st with send_camera_feed := false },
                        by simp [dispatch, Except.map, hgk, h1, h2, h3, h4, h5,
                          stop_sending_camera_feed, hkw, hflag], hcor.1⟩
                    | false =>
                      exact ⟨.status_rep CMD_STOP_SENDING_CAMERA_FEED false
                          (strBytes "Camera Feed is not currently running"), st,
                        by simp [dispatch, Except.map, hgk, h1, h2, h3, h4, h5,
                          stop_sending_camera_feed, hkw, hflag], hcor.2⟩
                  · by_cases h7 : c = CMD_GET_CAMERA_FEED
                    · subst h7
                      refine ⟨.camera_feed_data (env.stereo st.captures).1
                          (env.stereo st.captures).2,
                        { st with captures := st.captures + 1 }, ?_, ?_⟩
                      · simp [dispatch, Except.map, hgk, h1, h2, h3, h4, h5, h6,
                          get_camera_feed, getStereoFrames, hkw]
                      · simp [correlates, hgk]
                    · by_cases h8 : c = CMD_TEST_CAMERA_FPS_REQ
                      · subst h8
                        have hdt := helapsed st.captures
                        refine ⟨.test_camera_fps_rep (100 / env.elapsed st.captures),
                          captureFrames 100 env st, ?_, ?_⟩
                        · simp [dispatch, Except.map, hgk, h1, h2, h3, h4, h5, h6, h7,
                            test_camera_fps, hkw, hdt]
                        · simp [correlates, hgk,
                            show CMD_TEST_CAMERA_FPS_REQ ≠ CMD_GET_CAMERA_FEED from by decide]
                      · exfalso
                        simp only [Bool.or_eq_true, Bool.and_eq_true, beq_iff_eq] at hcmd
                        tauto
      | nil => rw [hgk] at hcmd; cases hcmd
      | bool b => rw [hgk] at hcmd; cases hcmd
      | int n => rw [hgk] at hcmd; cases hcmd
      | float q => rw [hgk] at hcmd; cases hcmd
      | bin b => rw [hgk] at hcmd; cases hcmd
      | list xs => rw [hgk] at hcmd; cases hcmd
      | map m => rw [hgk] at hcmd; cases hcmd
  | nil => cases hwf
  | bool b => cases hwf
  | int n => cases hwf
  | float q => cases hwf
  | str s => cases hwf
  | bin b => cases hwf
  | list xs => cases hwf

/-- Claim C2: N well-formed requests received in sequence by the control
loop yield exactly N responses, sent one per request in order before the
next request is processed, each response correlating to its request
(status responses echo the request command in cmd_id, get_camera_feed is
answered by camera_feed_data, test_camera_fps by test_camera_fps_rep). -/
theorem control_loop_one_response_per_request
    (env : ServerEnv) (st : ServerSt) (reqs : List Value)
    (hwf : reqs.all wellFormedReq = true)
    (helapsed : ∀ n, env.elapsed n ≠ 0) :
    (server_run env st (reqs.map .msg)).2.2 = none ∧
    (server_run env st (reqs.map .msg)).1.length = reqs.length ∧
    List.Forall₂ (fun req resp => correlates req resp = true) reqs
      (server_run env st (reqs.map .msg)).1 := by
  revert hwf
  induction reqs generalizing st with
  | nil => exact fun _ => ⟨rfl, rfl, List.Forall₂.nil⟩
  | cons q qs ihq =>
    intro hwf
    simp only [List.all_cons, Bool.and_eq_true] at hwf
    obtain ⟨hq, hqs⟩ := hwf
    obtain ⟨m, st2, hdisp, hcor⟩ := dispatch_wellFormed env st q hq helapsed
    obtain ⟨hnone, hlen, hcorr⟩ := ihq st2 hqs
    have hrun : server_run env st ((q :: qs).map LoopEvent.msg) =
        (m :: (server_run env st2 (qs.map LoopEvent.msg)).1,
         (server_run env st2 (qs.map LoopEvent.msg)).2.1,
         (server_run env st2 (qs.map LoopEvent.msg)).2.2) := by
      simp [server_run, hdisp]
    rw [hrun]
    exact ⟨hnone, by simp [hlen], List.Forall₂.cons hcor hcorr⟩

/-- A collaborator oracle for concrete runs: an idle camera, one second of
measured time per fps test, and calibration succeeding throughout. -/
def sampleEnv : ServerEnv :=
  ⟨fun _ => ([], []), fun _ => 1, .ok (), .ok (), .ok ()⟩

/-- A well-formed start_tracking request mapping. -/
def sampleStartTrackingReq : Value :=
  .map [(.str COMMAND, .str CMD_START_TRACKING_TENNISBALL)]

/-- A well-formed configure_led request mapping with its two required
fields. -/
def sampleConfigureLedReq : Value :=
  .map [(.str COMMAND, .str CMD_CONFIGURE_LED),
        (.str (strBytes "period_ms"), .int 500),
        (.str (strBytes "duty_cycle_percent"), .int 50)]

/-- Witness for C2 at two concrete requests. -/
theorem control_loop_one_response_per_request_witness :
    (server_run sampleEnv ⟨false, 0⟩
      ([sampleStartTrackingReq, sampleConfigureLedReq].map .msg)).2.2 = none ∧
    (server_run sampleEnv ⟨false, 0⟩
      ([sampleStartTrackingReq, sampleConfigureLedReq].map .msg)).1.length = 2 ∧
    List.Forall₂ (fun req resp => correlates req resp = true)
      [sampleStartTrackingReq, sampleConfigureLedReq]
      (server_run sampleEnv ⟨false, 0⟩
        ([sampleStartTrackingReq, sampleConfigureLedReq].map .msg)).1 :=
  control_loop_one_response_per_request sampleEnv ⟨false, 0⟩
    [sampleStartTrackingReq, sampleConfigureLedReq]
    (by decide) (fun _ => one_ne_zero)

/-- Claim C8: a received message whose command tag is not bound in
server.message_handler makes the control loop fail with the fatal
handler-lookup fault (KeyError, the spec taxonomy's UnknownCommandError):
no response is sent for that message and the loop thread dies, dropping
every later event. -/
theorem unknown_command_fatal
    (env : ServerEnv) (st : ServerSt) (kvs : List (Value × Value)) (c : List Nat)
    (rest : List LoopEvent)
    (hcmd : getKey kvs COMMAND = some (.str c))
    (habs : inHandlerTable c = false) :
    server_run env st (.msg (.map kvs) :: rest) = ([], st, some .keyError) := by
  simp only [inHandlerTable, Bool.or_eq_false_iff, beq_eq_false_iff_ne, ne_eq] at habs
  obtain ⟨⟨⟨⟨⟨⟨⟨hn1, hn2⟩, hn3⟩, hn4⟩, hn5⟩, hn6⟩, hn7⟩, hn8⟩ := habs
  have hd : dispatch env st (.map kvs) = .error .keyError := by
    simp [dispatch, hcmd, hn1, hn2, hn3, hn4, hn5, hn6, hn7, hn8]
  simp [server_run, hd]

/-- Witness for C8: the declared but unbound get_tennisball_coords command
kills the loop without a response. -/
theorem unknown_command_fatal_witness :
    server_run sampleEnv ⟨false, 0⟩
      [.msg (.map [(.str COMMAND, .str CMD_GET_TENNISBALL_COORDS)])] =
      ([], ⟨false, 0⟩, some .keyError) :=
  unknown_command_fatal sampleEnv ⟨false, 0⟩
    [(.str COMMAND, .str CMD_GET_TENNISBALL_COORDS)] CMD_GET_TENNISBALL_COORDS []
    rfl (by decide)

/-- Claim C4: starting the camera feed while it already streams fails with
an unsuccessful status and leaves the flag set; stopping it while it does
not stream fails and leaves the flag clear; the valid on-then-off sequence
returns a successful status both times and toggles the flag each time. -/
theorem camera_feed_gating (st : ServerSt) (kvs : List (Value × Value))
    (hk : kwargsOk kvs = true) :
    (st.send_camera_feed = true →
      start_sending_camera_feed kvs st =
        .ok (.status_rep CMD_START_SENDING_CAMERA_FEED false
          (strBytes "Camera Feed is already running"), st)) ∧
    (st.send_camera_feed = false →
      stop_sending_camera_feed kvs st =
        .ok (.status_rep CMD_STOP_SENDING_CAMERA_FEED false
          (strBytes "Camera Feed is not currently running"), st)) ∧
    (st.send_camera_feed = false →
      start_sending_camera_feed kvs st =
        .ok (.status_rep CMD_START_SENDING_CAMERA_FEED true [],
          { st with send_camera_feed := true }) ∧
      stop_sending_camera_feed kvs { st with send_camera_feed := true } =
        .ok (.status_rep CMD_STOP_SENDING_CAMERA_FEED true [], st)) := by
  refine ⟨fun hf => ?_, fun hf => ?_, fun hf => ⟨?_, ?_⟩⟩
  · simp [start_sending_camera_feed, hk, hf]
  · simp [stop_sending_camera_feed, hk, hf]
  · simp [start_sending_camera_feed, hk, hf]
  · have hst : { st with send_camera_feed := false } = st := by
      cases st
      simp only [ServerSt.mk.injEq] at hf ⊢
      simp_all
    simp [stop_sending_camera_feed, hk, hst]

/-- Witness for C4 at a concrete streaming state, a concrete idle state
and the empty request body. -/
theorem camera_feed_gating_witness :
    ((⟨true, 0⟩ : ServerSt).send_camera_feed = true →
      start_sending_camera_feed [] ⟨true, 0⟩ =
        .ok (.status_rep CMD_START_SENDING_CAMERA_FEED false
          (strBytes "Camera Feed is already running"), ⟨true, 0⟩)) ∧
    ((⟨true, 0⟩ : ServerSt).send_camera_feed = false →
      stop_sending_camera_feed [] ⟨true, 0⟩ =
        .ok (.status_rep CMD_STOP_SENDING_CAMERA_FEED false
          (strBytes "Camera Feed is not currently running"), ⟨true, 0⟩)) ∧
    ((⟨true, 0⟩ : ServerSt).send_camera_feed = false →
      start_sending_camera_feed [] ⟨true, 0⟩ =
        .ok (.status_rep CMD_START_SENDING_CAMERA_FEED true [],
          { (⟨true, 0⟩ : ServerSt) with send_camera_feed := true }) ∧
      stop_sending_camera_feed [] { (⟨true, 0⟩ : ServerSt) with send_camera_feed := true } =
        .ok (.status_rep CMD_STOP_SENDING_CAMERA_FEED true [], ⟨true, 0⟩)) :=
  camera_feed_gating ⟨true, 0⟩ [] rfl

/-- True when the handler call returned normally rather than raising. -/
def handlerReturned : Except pyErr (Message × ServerSt) → Bool
  | .ok _ => true
  | .error _ => false

/-- Claim C5 over the evidently intended calibrate_camera body (the
literal source is a syntax error, see the calibrate_camera doc comment):
whatever the calibration collaborator does, the handler returns normally;
all three collaborator steps succeeding yields a successful status, and a
failure of the left calibration, the right calibration or the persist step
yields an unsuccessful status carrying the cause. -/
theorem calibrate_camera_converts_failures
    (env : ServerEnv) (kvs : List (Value × Value)) (st : ServerSt) (e : List Nat)
    (hk : kwargsOk kvs = true) :
    handlerReturned (calibrate_camera env kvs st) = true ∧
    (env.calibrateLeft = .ok () → env.calibrateRight = .ok () →
      env.saveCalibration = .ok () →
      calibrate_camera env kvs st =
        .ok (.status_rep CMD_CALIBRATE_CAMERA true [], st)) ∧
    (env.calibrateLeft = .error e →
      calibrate_camera env kvs st = .ok (.status_rep CMD_CALIBRATE_CAMERA false
        (strBytes "Failed to calibrate the left camera!\n" ++ e), st)) ∧
    (env.calibrateLeft = .ok () → env.calibrateRight = .error e →
      calibrate_camera env kvs st = .ok (.status_rep CMD_CALIBRATE_CAMERA false
        (strBytes "Failed to calibrate the right camera!\n" ++ e), st)) ∧
    (env.calibrateLeft = .ok () → env.calibrateRight = .ok () →
      env.saveCalibration = .error e →
      calibrate_camera env kvs st = .ok (.status_rep CMD_CALIBRATE_CAMERA false
        (strBytes "Failed to save the calibrate data!\n" ++ e), st)) := by
  refine ⟨?_, fun hl hr hs => ?_, fun hl => ?_, fun hl hr => ?_, fun hl hr hs => ?_⟩
  · cases hl : env.calibrateLeft with
    | error el => simp [calibrate_camera, hk, hl, handlerReturned]
    | ok u =>
      cases hr : env.calibrateRight with
      | error er => simp [calibrate_camera, hk, hl, hr, handlerReturned]
      | ok u2 =>
        cases hs : env.saveCalibration with
        | error es => simp [calibrate_camera, hk, hl, hr, hs, handlerReturned]
        | ok u3 => simp [calibrate_camera, hk, hl, hr, hs, handlerReturned]
  · simp [calibrate_camera, hk, hl, hr, hs]
  · simp [calibrate_camera, hk, hl]
  · simp [calibrate_camera, hk, hl, hr]
  · simp [calibrate_camera, hk, hl, hr, hs]

/-- A collaborator oracle whose left-camera calibration raises. -/
def failingCalibEnv : ServerEnv :=
  ⟨fun _ => ([], []), fun _ => 1, .error (strBytes "no images"), .ok (), .ok ()⟩

/-- Witness for C5 at a concrete failing collaborator. -/
theorem calibrate_camera_converts_failures_witness :
    handlerReturned (calibrate_camera failingCalibEnv [] ⟨false, 0⟩) = true ∧
    (failingCalibEnv.calibrateLeft = .ok () → failingCalibEnv.calibrateRight = .ok () →
      failingCalibEnv.saveCalibration = .ok () →
      calibrate_camera failingCalibEnv [] ⟨false, 0⟩ =
        .ok (.status_rep CMD_CALIBRATE_CAMERA true [], ⟨false, 0⟩)) ∧
    (failingCalibEnv.calibrateLeft = .error (strBytes "no images") →
      calibrate_camera failingCalibEnv [] ⟨false, 0⟩ =
        .ok (.status_rep CMD_CALIBRATE_CAMERA false
          (strBytes "Failed to calibrate the left camera!\n" ++ strBytes "no images"),
          ⟨false, 0⟩)) ∧
    (failingCalibEnv.calibrateLeft = .ok () →
      failingCalibEnv.calibrateRight = .error (strBytes "no images") →
      calibrate_camera failingCalibEnv [] ⟨false, 0⟩ =
        .ok (.status_rep CMD_CALIBRATE_CAMERA false
          (strBytes "Failed to calibrate the right camera!\n" ++ strBytes "no images"),
          ⟨false, 0⟩)) ∧
    (failingCalibEnv.calibrateLeft = .ok () → failingCalibEnv.calibrateRight = .ok () →
      failingCalibEnv.saveCalibration = .error (strBytes "no images") →
      calibrate_camera failingCalibEnv [] ⟨false, 0⟩ =
        .ok (.status_rep CMD_CALIBRATE_CAMERA false
          (strBytes "Failed to save the calibrate data!\n" ++ strBytes "no images"),
          ⟨false, 0⟩)) :=
  calibrate_camera_converts_failures failingCalibEnv [] ⟨false, 0⟩
    (strBytes "no images") rfl

theorem captureFrames_captures (n : Nat) :
    ∀ (env : ServerEnv) (st : ServerSt),
      (captureFrames n env st).captures = st.captures + n ∧
      (captureFrames n env st).send_camera_feed = st.send_camera_feed := by
  induction n with
  | zero => intro env st; simp [captureFrames]
  | succ k ih =>
    intro env st
    have := ih env (getStereoFrames env st).2
    simp only [captureFrames, getStereoFrames] at this ⊢
    obtain ⟨h1, h2⟩ := this
    exact ⟨by omega, h2⟩

/-- Claim C9: the test_camera_fps handler captures exactly 100 frames
from the camera collaborator (leaving the rest of the server state alone)
and, provided the measured wall time is nonzero, replies with a
test_camera_fps_rep whose fps field is 100 divided by the elapsed
seconds. -/
theorem test_camera_fps_hundred_frames
    (env : ServerEnv) (kvs : List (Value × Value)) (st : ServerSt)
    (hk : kwargsOk kvs = true) (hdt : env.elapsed st.captures ≠ 0) :
    test_camera_fps env kvs st =
      .ok (.test_camera_fps_rep (100 / env.elapsed st.captures),
        captureFrames 100 env st) ∧
    (captureFrames 100 env st).captures = st.captures + 100 ∧
    (captureFrames 100 env st).send_camera_feed = st.send_camera_feed :=
  ⟨by simp [test_camera_fps, hk, hdt], (captureFrames_captures 100 env st).1,
    (captureFrames_captures 100 env st).2⟩

/-- Witness for C9 at a concrete camera oracle measuring four seconds. -/
theorem test_camera_fps_hundred_frames_witness :
    test_camera_fps ⟨fun _ => ([], []), fun _ => 4, .ok (), .ok (), .ok ()⟩ [] ⟨false, 0⟩ =
      .ok (.test_camera_fps_rep
          (100 / (⟨fun _ => ([], []), fun _ => 4, .ok (), .ok (), .ok ()⟩ : ServerEnv).elapsed
            (⟨false, 0⟩ : ServerSt).captures),
        captureFrames 100 ⟨fun _ => ([], []), fun _ => 4, .ok (), .ok (), .ok ()⟩ ⟨false, 0⟩) ∧
    (captureFrames 100 ⟨fun _ => ([], []), fun _ => 4, .ok (), .ok (), .ok ()⟩
      ⟨false, 0⟩).captures = (⟨false, 0⟩ : ServerSt).captures + 100 ∧
    (captureFrames 100 ⟨fun _ => ([], []), fun _ => 4, .ok (), .ok (), .ok ()⟩
      ⟨false, 0⟩).send_camera_feed = (⟨false, 0⟩ : ServerSt).send_camera_feed :=
  test_camera_fps_hundred_frames ⟨fun _ => ([], []), fun _ => 4, .ok (), .ok (), .ok ()⟩
    [] ⟨false, 0⟩ rfl (by norm_num)

theorem mapM_corner_convert_length :
    ∀ (cs ys : List CornerItem), cs.mapM corner_convert = some ys →
      ys.length = cs.length := by
  intro cs
  induction cs with
  | nil =>
    intro ys h
    simp only [List.mapM_nil, pure, Option.some.injEq] at h
    simp [← h]
  | cons c cs ihc =>
    intro ys h
    rw [List.mapM_cons] at h
    cases hc : corner_convert c with
    | none => rw [hc] at h; simp at h
    | some y =>
      rw [hc] at h
      cases hcs : cs.mapM corner_convert with
      | none => rw [hcs] at h; simp at h
      | some zs =>
        rw [hcs] at h
        simp at h
        subst h
        simp [ihc zs hcs]

/-- Claim C10: the get_tenniscourt_boundaries_rep constructor extends the
very corners list it was handed: one appended entry per original element
(a point3D built from the element when it is a mapping, the element itself
otherwise), so the stored corners list is the input followed by the
converted copies and has length 2n instead of the n corners supplied. -/
theorem boundaries_rep_init_doubles_corners
    (cs conv : List CornerItem)
    (hconv : cs.mapM corner_convert = some conv) :
    get_tenniscourt_boundaries_rep_init cs = some (cs ++ conv) ∧
    (cs ++ conv).length = 2 * cs.length := by
  constructor
  · simp only [get_tenniscourt_boundaries_rep_init]
    rw [hconv]
    rfl
  · have hl := mapM_corner_convert_length cs conv hconv
    simp only [List.length_append, hl]
    omega

/-- Witness for C10: a single point3D corner comes back doubled. -/
theorem boundaries_rep_init_doubles_corners_witness :
    get_tenniscourt_boundaries_rep_init [.pt ⟨.int 1, .int 2, .int 3⟩] =
      some ([.pt ⟨.int 1, .int 2, .int 3⟩] ++ [.pt ⟨.int 1, .int 2, .int 3⟩]) ∧
    ([CornerItem.pt ⟨.int 1, .int 2, .int 3⟩] ++
      [CornerItem.pt ⟨.int 1, .int 2, .int 3⟩]).length =
      2 * [CornerItem.pt ⟨.int 1, .int 2, .int 3⟩].length :=
  boundaries_rep_init_doubles_corners [.pt ⟨.int 1, .int 2, .int 3⟩]
    [.pt ⟨.int 1, .int 2, .int 3⟩] rfl

/-- True exactly on the court-boundaries response variant. -/
def isBoundariesRep : Message → Bool
  | .get_tenniscourt_boundaries_rep _ => true
  | _ => false

theorem messageRoundtrip_complete (m : Message)
    (h : isBoundariesRep m = false) :
    messageRoundtrip m = some m := by
  rw [messageRoundtrip_eq_ofMapping_toMapping]
  cases m with
  | status_rep cid b msg =>
    simp [Message.toMapping, Message.ofMapping, getKey, COMMAND, CMD_STATUS, strBytes]
  | start_tracking_req =>
    simp [Message.toMapping, Message.ofMapping, getKey, COMMAND, strBytes,
      CMD_STATUS, CMD_START_TRACKING_TENNISBALL]
  | stop_tracking_req =>
    simp [Message.toMapping, Message.ofMapping, getKey, COMMAND, strBytes,
      CMD_STATUS, CMD_START_TRACKING_TENNISBALL, CMD_STOP_TRACKING_TENNISBALL]
  | calibrate_camera_req =>
    simp [Message.toMapping, Message.ofMapping, getKey, COMMAND, strBytes,
      CMD_STATUS, CMD_START_TRACKING_TENNISBALL, CMD_STOP_TRACKING_TENNISBALL,
      CMD_CALIBRATE_CAMERA]
  | configure_led_req p d =>
    simp [Message.toMapping, Message.ofMapping, getKey, COMMAND, strBytes,
      CMD_STATUS, CMD_START_TRACKING_TENNISBALL, CMD_STOP_TRACKING_TENNISBALL,
      CMD_CALIBRATE_CAMERA, CMD_CONFIGURE_LED]
  | get_tenniscourt_boundaries_req =>
    simp [Message.toMapping, Message.ofMapping, getKey, COMMAND, strBytes,
      CMD_STATUS, CMD_START_TRACKING_TENNISBALL, CMD_STOP_TRACKING_TENNISBALL,
      CMD_CALIBRATE_CAMERA, CMD_CONFIGURE_LED, CMD_GET_TENNISCOURT_BOUNDARIES_REQ]
  | get_tenniscourt_boundaries_rep cs => cases h
  | start_sending_camera_feed_req =>
    simp [Message.toMapping, Message.ofMapping, getKey, COMMAND, strBytes,
      CMD_STATUS, CMD_START_TRACKING_TENNISBALL, CMD_STOP_TRACKING_TENNISBALL,
      CMD_CALIBRATE_CAMERA, CMD_CONFIGURE_LED, CMD_GET_TENNISCOURT_BOUNDARIES_REQ,
      CMD_GET_TENNISCOURT_BOUNDARIES_REP, CMD_START_SENDING_CAMERA_FEED]
  | stop_sending_camera_feed_req =>
    simp [Message.toMapping, Message.ofMapping, getKey, COMMAND, strBytes,
      CMD_STATUS, CMD_START_TRACKING_TENNISBALL, CMD_STOP_TRACKING_TENNISBALL,
      CMD_CALIBRATE_CAMERA, CMD_CONFIGURE_LED, CMD_GET_TENNISCOURT_BOUNDARIES_REQ,
      CMD_GET_TENNISCOURT_BOUNDARIES_REP, CMD_START_SENDING_CAMERA_FEED,
      CMD_STOP_SENDING_CAMERA_FEED]
  | get_camera_feed_req =>
    simp [Message.toMapping, Message.ofMapping, getKey, COMMAND, strBytes,
      CMD_STATUS, CMD_START_TRACKING_TENNISBALL, CMD_STOP_TRACKING_TENNISBALL,
      CMD_CALIBRATE_CAMERA, CMD_CONFIGURE_LED, CMD_GET_TENNISCOURT_BOUNDARIES_REQ,
      CMD_GET_TENNISCOURT_BOUNDARIES_REP, CMD_START_SENDING_CAMERA_FEED,
      CMD_STOP_SENDING_CAMERA_FEED, CMD_GET_CAMERA_FEED]
  | camera_feed_data l r =>
    simp [Message.toMapping, Message.ofMapping, getKey, COMMAND, strBytes,
      CMD_STATUS, CMD_START_TRACKING_TENNISBALL, CMD_STOP_TRACKING_TENNISBALL,
      CMD_CALIBRATE_CAMERA, CMD_CONFIGURE_LED, CMD_GET_TENNISCOURT_BOUNDARIES_REQ,
      CMD_GET_TENNISCOURT_BOUNDARIES_REP, CMD_START_SENDING_CAMERA_FEED,
      CMD_STOP_SENDING_CAMERA_FEED, CMD_GET_CAMERA_FEED, CMD_CAMERA_FEED_DATA]
  | test_camera_fps_req =>
    simp [Message.toMapping, Message.ofMapping, getKey, COMMAND, strBytes,
      CMD_STATUS, CMD_START_TRACKING_TENNISBALL, CMD_STOP_TRACKING_TENNISBALL,
      CMD_CALIBRATE_CAMERA, CMD_CONFIGURE_LED, CMD_GET_TENNISCOURT_BOUNDARIES_REQ,
      CMD_GET_TENNISCOURT_BOUNDARIES_REP, CMD_START_SENDING_CAMERA_FEED,
      CMD_STOP_SENDING_CAMERA_FEED, CMD_GET_CAMERA_FEED, CMD_CAMERA_FEED_DATA,
      CMD_TEST_CAMERA_FPS_REQ]
  | test_camera_fps_rep q =>
    simp [Message.toMapping, Message.ofMapping, getKey, COMMAND, strBytes,
      CMD_STATUS, CMD_START_TRACKING_TENNISBALL, CMD_STOP_TRACKING_TENNISBALL,
      CMD_CALIBRATE_CAMERA, CMD_CONFIGURE_LED, CMD_GET_TENNISCOURT_BOUNDARIES_REQ,
      CMD_GET_TENNISCOURT_BOUNDARIES_REP, CMD_START_SENDING_CAMERA_FEED,
      CMD_STOP_SENDING_CAMERA_FEED, CMD_GET_CAMERA_FEED, CMD_CAMERA_FEED_DATA,
      CMD_TEST_CAMERA_FPS_REQ, CMD_TEST_CAMERA_FPS_REP]
